import Mathlib

/-!
Verification of the container/image listing, reconciliation, command-building
and UI-detail logic of the `apple-container-helper` extension
(`containerUtils.ts`, `containerProvider.ts`, `containerDetails.ts`, and the
command registrations of `extension.ts`).

The TypeScript sources are embedded shallowly: each pure fragment of the code
becomes a Lean function over explicit data, with JavaScript string semantics
(`||` falsiness of the empty string, `String.prototype.split`, `/\s+/`
tokenisation, `includes`, `toLowerCase`) modelled by the `js*` helpers below.
External effects (process execution, JSON parsing, message toasts, confirmation
dialogs) are modelled as explicit inputs/outputs of the functions that use them.
-/

/-! ### JavaScript string primitives -/

/-- JS `a || b` for an optional string `a`: `undefined` and `""` are falsy. -/
def jsOrStr : Option String → String → String
  | some s, d => if s = "" then d else s
  | none, d => d

/-- Worker for `jsSplitChar`: accumulates the current segment (reversed). -/
def splitOnCharAux (c : Char) : List Char → List Char → List (List Char)
  | [], acc => [acc.reverse]
  | h :: t, acc =>
    if h == c then acc.reverse :: splitOnCharAux c t []
    else splitOnCharAux c t (h :: acc)

/-- JS `s.split(sep)` for a single-character separator: always at least one
segment, empty segments kept (`"a:".split(':') = ["a",""]`). -/
def jsSplitChar (c : Char) (s : String) : List String :=
  (splitOnCharAux c s.data []).map String.mk

/-- Worker for `jsTrimSplitWs`: maximal runs of non-whitespace characters,
with the current (reversed) run carried in `acc`. -/
def wsTokensAux : List Char → List Char → List (List Char)
  | [], [] => []
  | [], a :: as => [(a :: as).reverse]
  | c :: cs, acc =>
    if c.isWhitespace then
      match acc with
      | [] => wsTokensAux cs []
      | a :: as => (a :: as).reverse :: wsTokensAux cs []
    else wsTokensAux cs (c :: acc)

/-- JS `s.trim().split(/\s+/)`: the whitespace-run tokens of `s`, except that a
blank string yields `[""]` (JS `"".split(/\s+/)` is `[""]`). -/
def jsTrimSplitWs (s : String) : List String :=
  match wsTokensAux s.data [] with
  | [] => [""]
  | t :: ts => (t :: ts).map String.mk

/-- Is `pat` a prefix of `hay`? -/
def leadsWith : List Char → List Char → Bool
  | [], _ => true
  | _ :: _, [] => false
  | p :: ps, h :: hs => p == h && leadsWith ps hs

/-- Does `pat` occur contiguously inside `hay`? -/
def occursIn (pat : List Char) : List Char → Bool
  | [] => leadsWith pat []
  | h :: hs => leadsWith pat (h :: hs) || occursIn pat hs

/-- JS `hay.includes(sub)`. -/
def jsIncludes (hay sub : String) : Bool :=
  occursIn sub.data hay.data

/-- JS `s.toLowerCase()` (ASCII range, which is all the code compares). -/
def jsToLower (s : String) : String :=
  ⟨s.data.map Char.toLower⟩

/-- JS `arr.join(sep)`. -/
def joinWith (sep : String) : List String → String
  | [] => ""
  | [x] => x
  | x :: y :: xs => x ++ sep ++ joinWith sep (y :: xs)

/-! ### Data model (`containerUtils.ts` interfaces and raw CLI JSON shapes) -/

/-- The `Container` interface of `containerUtils.ts`. Optional fields are the
TS `?:` fields; the code stores `undefined` there when data is missing. -/
structure Container where
  id : String
  name : String
  image : String
  status : String
  ports : Option String
  created : String
  ipAddress : Option String
  os : Option String
  arch : Option String
deriving DecidableEq

/-- The `Image` interface of `containerUtils.ts`. -/
structure Image where
  id : String
  repository : String
  tag : String
  size : String
  created : String
  reference : String
deriving DecidableEq

/-- One entry of the parsed `container ls` table
(`parseContainerTable`'s element type). -/
structure TableEntry where
  id : String
  os : Option String
  arch : Option String
  ipAddress : Option String
deriving DecidableEq

/-- The `image` object nested in a raw JSON container's `configuration`. -/
structure RawImageRef where
  reference : Option String
deriving DecidableEq

/-- The `configuration` object of a raw JSON container. -/
structure RawConfig where
  id : Option String
  hostname : Option String
  image : Option RawImageRef
deriving DecidableEq

/-- One element of the `container list --format json` array, with the fields
`listContainers` reads; any of them may be missing in the raw JSON. -/
structure RawContainer where
  configuration : Option RawConfig
  status : Option String
deriving DecidableEq

/-- The `descriptor` object of a raw JSON image entry. -/
structure RawDescriptor where
  digest : Option String
  size : Option Nat
deriving DecidableEq

/-- One element of the `container image list --format json` array. -/
structure RawImage where
  reference : Option String
  descriptor : Option RawDescriptor
deriving DecidableEq

/-! ### `ContainerManager.parseContainerTable` and the container merge -/

/-- One line of the table body (`parseContainerTable`'s `map` callback): a line
with at least 6 whitespace tokens yields `{id: parts[0], os: parts[2],
arch: parts[3], ipAddress: parts[5] !== 'N/A' ? parts[5] : undefined}`, any
other line yields `{id: ''}`. -/
def parseRow (line : String) : TableEntry :=
  match jsTrimSplitWs line with
  | id :: _ :: os :: arch :: _ :: ip :: _ =>
    { id := id, os := some os, arch := some arch,
      ipAddress := if ip = "N/A" then none else some ip }
  | _ => { id := "", os := none, arch := none, ipAddress := none }

/-- `ContainerManager.parseContainerTable`: drop the header line, parse each
remaining line, keep entries with a truthy (non-empty) id. -/
def parseContainerTable (output : String) : List TableEntry :=
  (((jsSplitChar '\n' output).drop 1).map parseRow).filter (fun e => e.id != "")

/-- The empty `configuration` fallback (`rawContainer.configuration || {}`). -/
def emptyConfig : RawConfig :=
  { id := none, hostname := none, image := none }

/-- The body of `listContainers`'s `map` callback: build one `Container` from a
raw JSON entry, joining network/platform fields from the parsed table by exact
id equality (`containerTable.find(entry => entry.id === id)`). -/
def mergeContainer (containerTable : List TableEntry) (rawContainer : RawContainer) : Container :=
  let config := rawContainer.configuration.getD emptyConfig
  let id := jsOrStr config.id "unknown"
  let image := jsOrStr (config.image.bind RawImageRef.reference) "unknown"
  let tableEntry := containerTable.find? (fun entry => entry.id == id)
  { id := id
    name := jsOrStr config.hostname id
    image := image
    status := jsOrStr rawContainer.status "unknown"
    ports := some ""
    created := "unknown"
    ipAddress := tableEntry.bind TableEntry.ipAddress
    os := tableEntry.bind TableEntry.os
    arch := tableEntry.bind TableEntry.arch }

/-- The id a raw JSON entry is joined on (`config.id || 'unknown'`). -/
def containerIdOf (rawContainer : RawContainer) : String :=
  jsOrStr (rawContainer.configuration.getD emptyConfig).id "unknown"

/-- The successful path of `ContainerManager.listContainers`: parse the table
output and map the merge over the JSON listing. -/
def listContainersMerge (rawContainers : List RawContainer) (tableOutput : String) : List Container :=
  rawContainers.map (mergeContainer (parseContainerTable tableOutput))

/-! ### `ContainerManager.listImages` -/

/-- The body of `listImages`'s `map` callback: strip everything from the first
`@`, destructure `repositoryWithTag.split(':')` into its first two segments
(`const [repository, tag] = ...`), and apply the `|| 'unknown'` /
`|| 'latest'` fallbacks; size is `Math.round(size/1024) + ' KB'` when the raw
size is truthy. -/
def mapImage (rawImage : RawImage) : Image :=
  let reference := jsOrStr rawImage.reference ""
  let repositoryWithTag := (jsSplitChar '@' reference).headD ""
  let parts := jsSplitChar ':' repositoryWithTag
  let repository := parts.headD ""
  { id := jsOrStr (rawImage.descriptor.bind RawDescriptor.digest) ""
    repository := if repository = "" then "unknown" else repository
    tag := match parts.get? 1 with
      | some t => if t = "" then "latest" else t
      | none => "latest"
    size := match rawImage.descriptor.bind RawDescriptor.size with
      | some n => if n = 0 then "unknown" else Nat.repr ((n + 512) / 1024) ++ " KB"
      | none => "unknown"
    created := "unknown"
    reference := reference }

/-- The successful path of `ContainerManager.listImages`. -/
def listImagesMap (rawImages : List RawImage) : List Image :=
  rawImages.map mapImage

/-- Reference splitting as the amended spec states it: strip everything from
the first `@`, then the repository is the prefix before the FIRST colon
(`"unknown"` when empty) and the tag is the segment between the first and the
second colon (`"latest"` when missing or empty); segments after a second colon
are discarded. -/
def firstColonSplitSpec (reference : String) : String × String :=
  let base := (jsSplitChar '@' reference).headD ""
  match jsSplitChar ':' base with
  | [] => ("unknown", "latest")
  | [r] => (if r = "" then "unknown" else r, "latest")
  | r :: t :: _ => (if r = "" then "unknown" else r, if t = "" then "latest" else t)

/-- Reference splitting as claimed: strip any `@digest` suffix, then the
repository is the prefix before the LAST colon and the tag the suffix after
it, the tag defaulting to `latest` when no colon is present. Stated only to
be compared against `mapImage`. -/
def lastColonSplitClaim (reference : String) : String × String :=
  let base := (jsSplitChar '@' reference).headD ""
  let parts := jsSplitChar ':' base
  if parts.length ≤ 1 then (base, "latest")
  else (joinWith ":" parts.dropLast, parts.getLastD "")

/-! ### Failure handling of the two listing operations

`listContainers` and `listImages` run inside one `try`: a failing `exec` or an
unparseable JSON payload jumps to the `catch`, which shows an error toast and
returns `[]`. The external command and `JSON.parse` are modelled as explicit
inputs; the result pairs the returned list with the optional error notice. -/

/-- Outcome of one `execAsync` call: captured stdout, or a thrown error. -/
inductive ExecResult where
  | ok (stdout : String)
  | err (msg : String)
deriving DecidableEq

/-- `ContainerManager.listContainers` with its effects explicit: `parse` is
`JSON.parse` (plus the array-shape requirement), `jsonRes`/`tableRes` are the
two `execAsync` calls, in the order the code awaits them. Any failure yields
`([], some notice)`; the happy path yields the merged list and no notice. -/
def listContainersModel (parse : String → Option (List RawContainer))
    (jsonRes tableRes : ExecResult) : List Container × Option String :=
  match jsonRes with
  | .err e => ([], some ("Failed to list containers: " ++ e))
  | .ok jsonOutput =>
    match parse jsonOutput with
    | none => ([], some "Failed to list containers: JSON parse error")
    | some rawContainers =>
      match tableRes with
      | .err e => ([], some ("Failed to list containers: " ++ e))
      | .ok tableOutput => (listContainersMerge rawContainers tableOutput, none)

/-- `ContainerManager.listImages` with its effects explicit. -/
def listImagesModel (parse : String → Option (List RawImage))
    (jsonRes : ExecResult) : List Image × Option String :=
  match jsonRes with
  | .err e => ([], some ("Failed to list images: " ++ e))
  | .ok jsonOutput =>
    match parse jsonOutput with
    | none => ([], some "Failed to list images: JSON parse error")
    | some rawImages => (listImagesMap rawImages, none)

/-! ### Actions and the confirmation policy

Each action is modelled as a pure function returning the list of CLI command
strings it issues (via `execAsync` or a terminal `sendText`) together with its
boolean result where the source returns one. `execOk` stands for whether the
awaited external command succeeds; a confirmation dialog's outcome is an
explicit `Answer` input. Actions whose source never shows a dialog take no
`Answer` argument at all. -/

/-- Outcome of `showWarningMessage(..., 'Yes', 'No')`: the chosen button, or
`dismissed` when the user closes the prompt (JS `undefined`). -/
inductive Answer where
  | yes
  | no
  | dismissed
deriving DecidableEq

/-- `ContainerManager.startContainer`. -/
def startContainer (containerId : String) (execOk : Bool) : List String × Bool :=
  (["container start " ++ containerId], execOk)

/-- `ContainerManager.stopContainer`. -/
def stopContainer (containerId : String) (execOk : Bool) : List String × Bool :=
  (["container stop " ++ containerId], execOk)

/-- `ContainerManager.removeContainer`: no prompt of its own; always issues
`container delete[ --force] <id>`. -/
def removeContainer (containerId : String) (force : Bool) (execOk : Bool) : List String × Bool :=
  (["container delete" ++ (if force then " --force" else "") ++ " " ++ containerId], execOk)

/-- `ContainerManager.removeImage`: no prompt of its own. -/
def removeImage (imageId : String) (execOk : Bool) : List String × Bool :=
  (["container image delete " ++ imageId], execOk)

/-- `ContainerManager.pullImage` (runs in a terminal, unconditionally). -/
def pullImage (image : String) : List String × Bool :=
  (["container image pull " ++ image], true)

/-- `ContainerManager.buildImage` (terminal; optional `--tag`/`--file`). -/
def buildImage (contextPath : String) (tag dockerfile : Option String) : List String × Bool :=
  (["container build " ++ contextPath
      ++ (match tag with | some t => if t = "" then "" else " --tag " ++ t | none => "")
      ++ (match dockerfile with | some f => if f = "" then "" else " --file " ++ f | none => "")],
   true)

/-- `ContainerManager.execInContainer` (terminal, unconditionally). -/
def execInContainer (containerId command : String) : List String × Bool :=
  (["container exec --interactive --tty " ++ containerId ++ " " ++ command], true)

/-- `ContainerManager.inspectContainer` (returns parsed JSON or null; the
boolean records whether the command succeeded). -/
def inspectContainer (containerId : String) (execOk : Bool) : List String × Bool :=
  (["container inspect " ++ containerId], execOk)

/-- `ContainerManager.pruneImages`: shows the yes/no warning first and issues
`container image prune --force` only on `'Yes'`; any other outcome issues
nothing and returns `false`. -/
def pruneImages (answer : Answer) (execOk : Bool) : List String × Bool :=
  if answer = Answer.yes then (["container image prune --force"], execOk)
  else ([], false)

/-- The `removeContainer` message handler of `ContainerDetailsPanel`
(`containerDetails.ts`): confirmation dialog, then
`ContainerManager.removeContainer` only on `'Yes'`. -/
def detailsRemoveContainer (answer : Answer) (containerId : String) (execOk : Bool) : List String :=
  if answer = Answer.yes then (removeContainer containerId false execOk).1 else []

/-- The `apple-container-helper.removeContainer` command handler of
`extension.ts`: yes/no confirmation dialog, then
`ContainerManager.removeContainer(item.container.id)` (no force flag) only on
`'Yes'`; `containerId` is the selected item's `container.id`. -/
def paletteRemoveContainer (answer : Answer) (containerId : String) (execOk : Bool) :
    List String :=
  if answer = Answer.yes then (removeContainer containerId false execOk).1 else []

/-- The `apple-container-helper.forceRemoveContainer` command handler of
`extension.ts`: yes/no confirmation dialog, then
`ContainerManager.removeContainer(item.container.id, true)` only on `'Yes'`. -/
def paletteForceRemoveContainer (answer : Answer) (containerId : String) (execOk : Bool) :
    List String :=
  if answer = Answer.yes then (removeContainer containerId true execOk).1 else []

/-- The `apple-container-helper.removeImage` command handler of
`extension.ts`: yes/no confirmation dialog, then
`ContainerManager.removeImage(item.image.id)` only on `'Yes'`; `imageId` is
the selected item's `image.id`. -/
def paletteRemoveImage (answer : Answer) (imageId : String) (execOk : Bool) : List String :=
  if answer = Answer.yes then (removeImage imageId execOk).1 else []

/-! ### `ContainerManager.runContainerAdvanced` -/

/-- The `options` parameter of `runContainerAdvanced`, field for field. -/
structure RunOptions where
  name : Option String
  ports : List String
  referencePorts : List String
  volumes : Option (List String)
  env : Option (List String)
  detach : Bool
  interactive : Bool
  tty : Bool
  remove : Bool
  command : Option String
  workdir : Option String
  user : Option String
  entrypoint : Option String
  cpus : Option Nat
  memory : Option String
  network : Option String
  labels : Option (List String)
  dns : Option (List String)
deriving DecidableEq

/-- `if (options?.detach) cmd += ' --detach';` -/
def addDetach (o : RunOptions) (cmd : String) : String :=
  if o.detach then cmd ++ " --detach" else cmd

/-- `if (options?.interactive) cmd += ' --interactive';` -/
def addInteractive (o : RunOptions) (cmd : String) : String :=
  if o.interactive then cmd ++ " --interactive" else cmd

/-- `if (options?.tty) cmd += ' --tty';` -/
def addTty (o : RunOptions) (cmd : String) : String :=
  if o.tty then cmd ++ " --tty" else cmd

/-- `if (options?.remove) cmd += ' --rm';` -/
def addRm (o : RunOptions) (cmd : String) : String :=
  if o.remove then cmd ++ " --rm" else cmd

/-- `if (options?.name) cmd += ` --name ...`;` (JS: `""` is falsy). -/
def addName (o : RunOptions) (cmd : String) : String :=
  match o.name with
  | some n => if n = "" then cmd else cmd ++ " --name " ++ n
  | none => cmd

/-- `if (options?.workdir) cmd += ` --workdir "..."`;` -/
def addWorkdir (o : RunOptions) (cmd : String) : String :=
  match o.workdir with
  | some w => if w = "" then cmd else cmd ++ " --workdir \"" ++ w ++ "\""
  | none => cmd

/-- `if (options?.user) cmd += ` --user ...`;` -/
def addUser (o : RunOptions) (cmd : String) : String :=
  match o.user with
  | some u => if u = "" then cmd else cmd ++ " --user " ++ u
  | none => cmd

/-- `if (options?.entrypoint) cmd += ` --entrypoint "..."`;` -/
def addEntrypoint (o : RunOptions) (cmd : String) : String :=
  match o.entrypoint with
  | some e => if e = "" then cmd else cmd ++ " --entrypoint \"" ++ e ++ "\""
  | none => cmd

/-- `if (options?.cpus) cmd += ` --cpus ...`;` (JS: `0` is falsy). -/
def addCpus (o : RunOptions) (cmd : String) : String :=
  match o.cpus with
  | some c => if c = 0 then cmd else cmd ++ " --cpus " ++ Nat.repr c
  | none => cmd

/-- `if (options?.memory) cmd += ` --memory ...`;` -/
def addMemory (o : RunOptions) (cmd : String) : String :=
  match o.memory with
  | some m => if m = "" then cmd else cmd ++ " --memory " ++ m
  | none => cmd

/-- `options.dns.forEach(dns => cmd += ` --dns ${dns}`);` -/
def addDns (o : RunOptions) (cmd : String) : String :=
  match o.dns with
  | some ds => ds.foldl (fun c d => c ++ " --dns " ++ d) cmd
  | none => cmd

/-- `options.volumes.forEach(volume => cmd += ` -v ${volume}`);` -/
def addVolumes (o : RunOptions) (cmd : String) : String :=
  match o.volumes with
  | some vs => vs.foldl (fun c v => c ++ " -v " ++ v) cmd
  | none => cmd

/-- `options.env.forEach(env => cmd += ` -e ${env}`);` -/
def addEnv (o : RunOptions) (cmd : String) : String :=
  match o.env with
  | some es => es.foldl (fun c e => c ++ " -e " ++ e) cmd
  | none => cmd

/-- `options.labels.forEach(label => cmd += ` -l ${label}`);` -/
def addLabels (o : RunOptions) (cmd : String) : String :=
  match o.labels with
  | some ls => ls.foldl (fun c l => c ++ " -l " ++ l) cmd
  | none => cmd

/-- `cmd += ` ${image}`;` -/
def addImage (image : String) (cmd : String) : String :=
  cmd ++ " " ++ image

/-- `if (options?.command) cmd += ` ${options.command}`;` -/
def addCommand (o : RunOptions) (cmd : String) : String :=
  match o.command with
  | some c => if c = "" then cmd else cmd ++ " " ++ c
  | none => cmd

/-- The command string `runContainerAdvanced` builds: the source's `cmd`
accumulator threaded through its append blocks in source order. `ports` and
`network` are never read; `referencePorts` is read only by the post-run
advisory. -/
def buildRunCmd (image : String) (o : RunOptions) : String :=
  addCommand o (addImage image (addLabels o (addEnv o (addVolumes o (addDns o
    (addMemory o (addCpus o (addEntrypoint o (addUser o (addWorkdir o (addName o
      (addRm o (addTty o (addInteractive o (addDetach o "container run")))))))))))))))

/-- The post-run advisory of `runContainerAdvanced`: shown exactly when
`referencePorts` is non-empty, listing those ports; nothing of it reaches the
invocation string. -/
def portsAdvisory (o : RunOptions) : Option String :=
  if o.referencePorts.isEmpty then none
  else some ("Container started! Use \x27container ls\x27 to get the IP address, then access ports "
      ++ joinWith ", " o.referencePorts ++ " directly on that IP.")

/-- `runContainerAdvanced` as an action: it sends exactly the built command to
a terminal and returns `true`. -/
def runContainerAdvanced (image : String) (o : RunOptions) : List String × Bool :=
  ([buildRunCmd image o], true)

/-! ### `ContainerProvider` detail rows and the connection heuristic -/

/-- JS truthiness of an optional string field (`undefined` and `""` falsy). -/
def jsTruthyOpt : Option String → Bool
  | some s => s != ""
  | none => false

/-- One connection example (`{label, value, copyValue}`). -/
structure ConnExample where
  label : String
  value : String
  copyValue : String
deriving DecidableEq

/-- One tree detail row (`ContainerDetailItem`'s constructor arguments). -/
structure ContainerDetailItem where
  label : String
  value : String
  type : String
  copyValue : Option String
deriving DecidableEq

/-- `ContainerProvider.getConnectionExamples`, branch for branch: one if/else
chain of case-insensitive substring tests on the image reference, first match
wins; the final else emits the generic suggestions. `ip` is
`container.ipAddress!` (the caller guards on its truthiness). -/
def getConnectionExamples (container : Container) : List ConnExample :=
  let ip := container.ipAddress.getD ""
  let imageLower := jsToLower container.image
  if jsIncludes imageLower "redis" then
    [⟨"🔗 Redis CLI", "redis-cli -h " ++ ip ++ " -p 6379", "redis-cli -h " ++ ip ++ " -p 6379"⟩]
  else if jsIncludes imageLower "postgres" || jsIncludes imageLower "postgresql" then
    [⟨"🐘 PostgreSQL", "psql -h " ++ ip ++ " -p 5432 -U postgres",
      "psql -h " ++ ip ++ " -p 5432 -U postgres"⟩]
  else if jsIncludes imageLower "mysql" || jsIncludes imageLower "mariadb" then
    let tool := if jsIncludes imageLower "mariadb" then "mariadb" else "mysql"
    [⟨"🐬 MySQL/MariaDB", tool ++ " -h " ++ ip ++ " -P 3306 -u root -p",
      tool ++ " -h " ++ ip ++ " -P 3306 -u root -p"⟩]
  else if jsIncludes imageLower "mongo" then
    [⟨"🍃 MongoDB", "mongosh mongodb://" ++ ip ++ ":27017", "mongosh mongodb://" ++ ip ++ ":27017"⟩]
  else if jsIncludes imageLower "cassandra" then
    [⟨"🔸 Cassandra", "cqlsh " ++ ip ++ " 9042", "cqlsh " ++ ip ++ " 9042"⟩]
  else if jsIncludes imageLower "nginx" || jsIncludes imageLower "apache"
      || jsIncludes imageLower "httpd" then
    [⟨"🌐 Web Server", "curl http://" ++ ip ++ ":80", "curl http://" ++ ip ++ ":80"⟩]
  else if jsIncludes imageLower "node" || jsIncludes imageLower "express" then
    [⟨"📗 Node.js App", "curl http://" ++ ip ++ ":3000", "curl http://" ++ ip ++ ":3000"⟩]
  else if jsIncludes imageLower "python" || jsIncludes imageLower "flask"
      || jsIncludes imageLower "django" then
    [⟨"🐍 Python App", "curl http://" ++ ip ++ ":8000", "curl http://" ++ ip ++ ":8000"⟩]
  else if jsIncludes imageLower "java" || jsIncludes imageLower "spring"
      || jsIncludes imageLower "tomcat" then
    [⟨"☕ Java App", "curl http://" ++ ip ++ ":8080", "curl http://" ++ ip ++ ":8080"⟩]
  else if jsIncludes imageLower "rabbitmq" then
    [⟨"🐰 RabbitMQ Management", "http://" ++ ip ++ ":15672", "http://" ++ ip ++ ":15672"⟩]
  else if jsIncludes imageLower "kafka" then
    [⟨"📨 Kafka Bootstrap", ip ++ ":9092", ip ++ ":9092"⟩]
  else if jsIncludes imageLower "elasticsearch" then
    [⟨"🔍 Elasticsearch", "curl http://" ++ ip ++ ":9200", "curl http://" ++ ip ++ ":9200"⟩]
  else if jsIncludes imageLower "jenkins" then
    [⟨"🔧 Jenkins", "http://" ++ ip ++ ":8080", "http://" ++ ip ++ ":8080"⟩]
  else if jsIncludes imageLower "gitlab" then
    [⟨"🦊 GitLab", "http://" ++ ip ++ ":80", "http://" ++ ip ++ ":80"⟩]
  else
    (if jsIncludes imageLower "web" || jsIncludes imageLower "server"
        || jsIncludes imageLower "api" then
      [⟨"🌐 Default Web Port", "http://" ++ ip ++ ":8080", "http://" ++ ip ++ ":8080"⟩]
    else []) ++
    [⟨"🔗 Common Ports", ip ++ ":PORT (80, 8080, 3000, 5000)", ip ++ ":"⟩]

/-- `ContainerProvider.getContainerDetails`, push for push: id row, optional
IP row, image row, status row, connection/URL/SSH rows for a running container
with an IP, optional platform row, and the created row unless `created` is
falsy or equals the capitalized `'Unknown'`. -/
def getContainerDetails (container : Container) : List ContainerDetailItem :=
  let isRunning := jsIncludes (jsToLower container.status) "running"
  [⟨"📋 Container ID", container.id, "copy-id", some container.id⟩]
  ++ (match container.ipAddress with
      | some ip => if ip = "" then [] else [⟨"🌐 IP Address", ip, "copy-ip", some ip⟩]
      | none => [])
  ++ [⟨"📦 Image", container.image, "copy-image", some container.image⟩]
  ++ [⟨"📊 Status", (if isRunning then "▶️ " else "⏹️ ") ++ container.status, "status", none⟩]
  ++ (if jsTruthyOpt container.ipAddress && isRunning then
        (getConnectionExamples container).map
          (fun ex => ⟨ex.label, ex.value, "copy-command", some ex.copyValue⟩)
        ++ [⟨"🌍 Base URL", "http://" ++ container.ipAddress.getD "", "copy-url",
              some ("http://" ++ container.ipAddress.getD "")⟩,
            ⟨"🖥️ SSH Access", "ssh user@" ++ container.ipAddress.getD "", "copy-command",
              some ("ssh user@" ++ container.ipAddress.getD "")⟩]
      else [])
  ++ (if jsTruthyOpt container.os && jsTruthyOpt container.arch then
        [⟨"💻 Platform", container.os.getD "" ++ "/" ++ container.arch.getD "", "platform", none⟩]
      else [])
  ++ (if container.created != "" && container.created != "Unknown" then
        [⟨"🕒 Created", container.created, "created", none⟩]
      else [])

/-! ### Spec-side decomposition of the run command (section 4.4 of the spec) -/

/-- Join segments onto an initial word with single spaces. -/
def appendSegs (init : String) (segs : List String) : String :=
  segs.foldl (fun c s => c ++ " " ++ s) init

/-- A boolean runtime flag's segment list. -/
def boolFlag (b : Bool) (flag : String) : List String :=
  if b then [flag] else []

/-- A JS-truthy optional string option's segment list. -/
def strOptSegs (v : Option String) (f : String → String) : List String :=
  match v with
  | some s => if s = "" then [] else [f s]
  | none => []

/-- The `--cpus` segment list (emitted only for a truthy, i.e. nonzero, count). -/
def cpusSegs (v : Option Nat) : List String :=
  match v with
  | some c => if c = 0 then [] else ["--cpus " ++ Nat.repr c]
  | none => []

/-- Spec: runtime flags, in order `--detach`, `--interactive`, `--tty`, `--rm`. -/
def runtimeSegs (o : RunOptions) : List String :=
  boolFlag o.detach "--detach" ++ boolFlag o.interactive "--interactive"
    ++ boolFlag o.tty "--tty" ++ boolFlag o.remove "--rm"

/-- Spec: identity flags, in order `--name`, `--workdir`, `--user`,
`--entrypoint` (the latter two of `--workdir`/`--entrypoint` quoted). -/
def identitySegs (o : RunOptions) : List String :=
  strOptSegs o.name (fun n => "--name " ++ n)
    ++ strOptSegs o.workdir (fun w => "--workdir \"" ++ w ++ "\"")
    ++ strOptSegs o.user (fun u => "--user " ++ u)
    ++ strOptSegs o.entrypoint (fun e => "--entrypoint \"" ++ e ++ "\"")

/-- Spec: resource flags, `--cpus` then `--memory`. -/
def resourceSegs (o : RunOptions) : List String :=
  cpusSegs o.cpus ++ strOptSegs o.memory (fun m => "--memory " ++ m)

/-- Spec: repeated multi-value flags — DNS, volumes, env, labels — one segment
per item, in each list's own order. -/
def multiSegs (o : RunOptions) : List String :=
  (o.dns.getD []).map (fun d => "--dns " ++ d)
    ++ (o.volumes.getD []).map (fun v => "-v " ++ v)
    ++ (o.env.getD []).map (fun e => "-e " ++ e)
    ++ (o.labels.getD []).map (fun l => "-l " ++ l)

/-- Spec: the optional trailing command override. -/
def commandSegs (o : RunOptions) : List String :=
  strOptSegs o.command (fun c => c)

theorem appendSegs_append (init : String) (a b : List String) :
    appendSegs init (a ++ b) = appendSegs (appendSegs init a) b :=
  List.foldl_append _ _ _ _

theorem append_split_space (cmd pre rest : String) :
    cmd ++ (" " ++ pre) ++ rest = cmd ++ " " ++ (pre ++ rest) := by
  simp [String.append_assoc]

theorem foldl_space_flag (pre : String) (l : List String) (init : String) :
    l.foldl (fun c d => c ++ (" " ++ pre) ++ d) init
      = appendSegs init (l.map (fun d => pre ++ d)) := by
  induction l generalizing init with
  | nil => rfl
  | cons x xs ih =>
    simp only [List.foldl_cons, List.map_cons]
    rw [append_split_space]
    exact ih _

theorem addDetach_eq (o : RunOptions) (cmd : String) :
    addDetach o cmd = appendSegs cmd (boolFlag o.detach "--detach") := by
  unfold addDetach boolFlag
  cases o.detach
  · rfl
  · exact (String.append_assoc cmd " " "--detach").symm

theorem addInteractive_eq (o : RunOptions) (cmd : String) :
    addInteractive o cmd = appendSegs cmd (boolFlag o.interactive "--interactive") := by
  unfold addInteractive boolFlag
  cases o.interactive
  · rfl
  · exact (String.append_assoc cmd " " "--interactive").symm

theorem addTty_eq (o : RunOptions) (cmd : String) :
    addTty o cmd = appendSegs cmd (boolFlag o.tty "--tty") := by
  unfold addTty boolFlag
  cases o.tty
  · rfl
  · exact (String.append_assoc cmd " " "--tty").symm

theorem addRm_eq (o : RunOptions) (cmd : String) :
    addRm o cmd = appendSegs cmd (boolFlag o.remove "--rm") := by
  unfold addRm boolFlag
  cases o.remove
  · rfl
  · exact (String.append_assoc cmd " " "--rm").symm

theorem addName_eq (o : RunOptions) (cmd : String) :
    addName o cmd = appendSegs cmd (strOptSegs o.name (fun n => "--name " ++ n)) := by
  unfold addName strOptSegs
  cases o.name with
  | none => rfl
  | some n =>
    by_cases hn : n = ""
    · simp [hn, appendSegs]
    · simp only [if_neg hn]
      exact append_split_space cmd "--name " n

theorem addWorkdir_eq (o : RunOptions) (cmd : String) :
    addWorkdir o cmd
      = appendSegs cmd (strOptSegs o.workdir (fun w => "--workdir \"" ++ w ++ "\"")) := by
  unfold addWorkdir strOptSegs
  cases o.workdir with
  | none => rfl
  | some w =>
    by_cases hw : w = ""
    · simp [hw, appendSegs]
    · simp only [if_neg hw]
      show cmd ++ (" " ++ "--workdir \"") ++ w ++ "\"" = _
      rw [append_split_space]
      exact String.append_assoc (cmd ++ " ") ("--workdir \"" ++ w) "\""

theorem addUser_eq (o : RunOptions) (cmd : String) :
    addUser o cmd = appendSegs cmd (strOptSegs o.user (fun u => "--user " ++ u)) := by
  unfold addUser strOptSegs
  cases o.user with
  | none => rfl
  | some u =>
    by_cases hu : u = ""
    · simp [hu, appendSegs]
    · simp only [if_neg hu]
      exact append_split_space cmd "--user " u

theorem addEntrypoint_eq (o : RunOptions) (cmd : String) :
    addEntrypoint o cmd
      = appendSegs cmd (strOptSegs o.entrypoint (fun e => "--entrypoint \"" ++ e ++ "\"")) := by
  unfold addEntrypoint strOptSegs
  cases o.entrypoint with
  | none => rfl
  | some e =>
    by_cases he : e = ""
    · simp [he, appendSegs]
    · simp only [if_neg he]
      show cmd ++ (" " ++ "--entrypoint \"") ++ e ++ "\"" = _
      rw [append_split_space]
      exact String.append_assoc (cmd ++ " ") ("--entrypoint \"" ++ e) "\""

theorem addCpus_eq (o : RunOptions) (cmd : String) :
    addCpus o cmd = appendSegs cmd (cpusSegs o.cpus) := by
  unfold addCpus cpusSegs
  cases o.cpus with
  | none => rfl
  | some c =>
    by_cases hc : c = 0
    · simp [hc, appendSegs]
    · simp only [if_neg hc]
      exact append_split_space cmd "--cpus " (Nat.repr c)

theorem addMemory_eq (o : RunOptions) (cmd : String) :
    addMemory o cmd = appendSegs cmd (strOptSegs o.memory (fun m => "--memory " ++ m)) := by
  unfold addMemory strOptSegs
  cases o.memory with
  | none => rfl
  | some m =>
    by_cases hm : m = ""
    · simp [hm, appendSegs]
    · simp only [if_neg hm]
      exact append_split_space cmd "--memory " m

theorem addDns_eq (o : RunOptions) (cmd : String) :
    addDns o cmd = appendSegs cmd ((o.dns.getD []).map (fun d => "--dns " ++ d)) := by
  unfold addDns
  cases o.dns with
  | none => rfl
  | some ds => exact foldl_space_flag "--dns " ds cmd

theorem addVolumes_eq (o : RunOptions) (cmd : String) :
    addVolumes o cmd = appendSegs cmd ((o.volumes.getD []).map (fun v => "-v " ++ v)) := by
  unfold addVolumes
  cases o.volumes with
  | none => rfl
  | some vs => exact foldl_space_flag "-v " vs cmd

theorem addEnv_eq (o : RunOptions) (cmd : String) :
    addEnv o cmd = appendSegs cmd ((o.env.getD []).map (fun e => "-e " ++ e)) := by
  unfold addEnv
  cases o.env with
  | none => rfl
  | some es => exact foldl_space_flag "-e " es cmd

theorem addLabels_eq (o : RunOptions) (cmd : String) :
    addLabels o cmd = appendSegs cmd ((o.labels.getD []).map (fun l => "-l " ++ l)) := by
  unfold addLabels
  cases o.labels with
  | none => rfl
  | some ls => exact foldl_space_flag "-l " ls cmd

theorem addImage_eq (image cmd : String) :
    addImage image cmd = appendSegs cmd [image] := rfl

theorem addCommand_eq (o : RunOptions) (cmd : String) :
    addCommand o cmd = appendSegs cmd (commandSegs o) := by
  unfold addCommand commandSegs strOptSegs
  cases o.command with
  | none => rfl
  | some c =>
    by_cases hc : c = ""
    · simp [hc, appendSegs]
    · simp only [if_neg hc]
      rfl

/-! ### Helper lemmas -/

theorem jsOrStr_ne_empty (x : Option String) (d : String) (hd : d ≠ "") :
    jsOrStr x d ≠ "" := by
  cases x with
  | none => exact hd
  | some s =>
    by_cases hs : s = ""
    · simp only [jsOrStr, if_pos hs]
      exact hd
    · simp only [jsOrStr, if_neg hs]
      exact hs

theorem mk_ne_empty {l : List Char} (h : l ≠ []) : String.mk l ≠ "" := by
  intro he
  apply h
  have hd : (String.mk l).data = ("" : String).data := by rw [he]
  simpa using hd

theorem wsTokensAux_mem_ne_nil (l : List Char) :
    ∀ (acc : List Char), ∀ x ∈ wsTokensAux l acc, x ≠ [] := by
  induction l with
  | nil =>
    intro acc x hx
    cases acc with
    | nil => simp [wsTokensAux] at hx
    | cons a as =>
      simp only [wsTokensAux, List.mem_singleton] at hx
      subst hx
      simp
  | cons c cs ih =>
    intro acc x hx
    simp only [wsTokensAux] at hx
    split at hx
    · split at hx
      · exact ih [] x hx
      · rcases List.mem_cons.mp hx with h1 | h1
        · subst h1
          simp
        · exact ih [] x h1
    · exact ih (c :: acc) x hx

theorem six_shape {α : Type _} (l : List α) (h : 6 ≤ l.length) :
    ∃ a b c d e f rest, l = a :: b :: c :: d :: e :: f :: rest := by
  cases l with
  | nil => simp at h
  | cons a l1 =>
  cases l1 with
  | nil => simp at h
  | cons b l2 =>
  cases l2 with
  | nil => simp at h
  | cons c l3 =>
  cases l3 with
  | nil => simp at h
  | cons d l4 =>
  cases l4 with
  | nil => simp at h
  | cons e l5 =>
  cases l5 with
  | nil => simp at h
  | cons f rest => exact ⟨a, b, c, d, e, f, rest, rfl⟩

theorem jsTrimSplitWs_head_ne (line : String) (a : String) (rest : List String)
    (h : jsTrimSplitWs line = a :: rest) (hr : rest ≠ []) : a ≠ "" := by
  unfold jsTrimSplitWs at h
  cases hw : wsTokensAux line.data [] with
  | nil =>
    rw [hw] at h
    injection h with h1 h2
    exact absurd h2.symm hr
  | cons t ts =>
    rw [hw] at h
    simp only [List.map_cons, List.cons.injEq] at h
    have ht : t ∈ wsTokensAux line.data [] := by
      rw [hw]
      exact List.mem_cons_self t ts
    have hne := wsTokensAux_mem_ne_nil line.data [] t ht
    rw [← h.1]
    exact mk_ne_empty hne

/-! ### Claim theorems -/

/-- C8: the advanced-run command builder emits flags in the fixed order
runtime (`--detach`, `--interactive`, `--tty`, `--rm`), identity (`--name`,
`--workdir`, `--user`, `--entrypoint`), resource (`--cpus`, `--memory`),
repeated multi-value flags (DNS, volumes, env, labels; one emission per item,
in the item's given order), the image reference, and the optional trailing
command override; the built invocation is independent of the `ports`,
`referencePorts` and `network` options (so no port-publishing or
network-selection flag is ever emitted), and user-supplied ports survive only
as the post-run advisory message. -/
theorem runAdvanced_flag_order (image : String) (o : RunOptions) :
    buildRunCmd image o
      = appendSegs "container run"
          (runtimeSegs o ++ identitySegs o ++ resourceSegs o ++ multiSegs o
            ++ [image] ++ commandSegs o)
    ∧ (∀ (ps rps : List String) (nw : Option String),
        buildRunCmd image { o with ports := ps, referencePorts := rps, network := nw }
          = buildRunCmd image o)
    ∧ (portsAdvisory o).isSome = !o.referencePorts.isEmpty := by
  refine ⟨?_, fun ps rps nw => rfl, ?_⟩
  · simp only [buildRunCmd, addDetach_eq, addInteractive_eq, addTty_eq, addRm_eq,
      addName_eq, addWorkdir_eq, addUser_eq, addEntrypoint_eq, addCpus_eq, addMemory_eq,
      addDns_eq, addVolumes_eq, addEnv_eq, addLabels_eq, addImage_eq, addCommand_eq,
      runtimeSegs, identitySegs, resourceSegs, multiSegs, appendSegs_append]
  · cases h : o.referencePorts with
    | nil => simp [portsAdvisory, h]
    | cons p ps => simp [portsAdvisory, h]

/-- C2: container-list reconciliation is a left join on id from the JSON
source: the output has exactly one merged record per JSON entry, in the JSON
listing's order (so no table-only entry produces a record), and a JSON entry
whose id matches no parsed table entry yields a record with `ipAddress`,
`os` and `arch` all absent. -/
theorem listContainers_left_join (raw : List RawContainer) (t : String) :
    (listContainersMerge raw t).length = raw.length
    ∧ (∀ i : Nat, (listContainersMerge raw t)[i]?
        = (raw[i]?).map (mergeContainer (parseContainerTable t)))
    ∧ (∀ rc : RawContainer,
        (parseContainerTable t).find? (fun e => e.id == containerIdOf rc) = none →
          (mergeContainer (parseContainerTable t) rc).ipAddress = none
          ∧ (mergeContainer (parseContainerTable t) rc).os = none
          ∧ (mergeContainer (parseContainerTable t) rc).arch = none) := by
  refine ⟨by simp [listContainersMerge], ?_, ?_⟩
  · intro i
    simp [listContainersMerge]
  · intro rc h
    simp only [containerIdOf] at h
    simp [mergeContainer, h]

/-- Witness for C2: a single JSON entry against an empty table output has its
network and platform fields absent. -/
theorem listContainers_left_join_witness :
    (mergeContainer (parseContainerTable "")
        ⟨some ⟨some "abc", none, none⟩, none⟩).ipAddress = none :=
  ((listContainers_left_join [⟨some ⟨some "abc", none, none⟩, none⟩] "").2.2
    ⟨some ⟨some "abc", none, none⟩, none⟩ (by decide)).1

/-- C3: the end-to-end scenario — the JSON payload
`[{"configuration":{"id":"abc","hostname":"web1","image":{"reference":"nginx:latest"}},"status":"running"}]`
merged with the table output whose data line is
`abc  -  linux  arm64  -  10.0.0.5` yields exactly one record with id `abc`,
name `web1`, image `nginx:latest`, status `running`, ip `10.0.0.5`,
os `linux`, arch `arm64`. -/
theorem listContainers_end_to_end :
    listContainersMerge
        [⟨some ⟨some "abc", some "web1", some ⟨some "nginx:latest"⟩⟩, some "running"⟩]
        "ID  IMAGE  OS  ARCH  STATE  ADDR\nabc  -  linux  arm64  -  10.0.0.5"
      = [⟨"abc", "web1", "nginx:latest", "running", some "", "unknown",
          some "10.0.0.5", some "linux", some "arm64"⟩] := by
  decide

/-- The filter `parseContainerTable` applies keeps exactly the lines with at
least 6 whitespace tokens. -/
theorem parseRow_id_length (l : String) :
    ((parseRow l).id != "") = decide (6 ≤ (jsTrimSplitWs l).length) := by
  unfold parseRow
  split
  · next idt _ ost archt _ ipt rest h =>
    have hne : idt ≠ "" := by
      refine jsTrimSplitWs_head_ne l idt _ h ?_
      simp
    have hlen : 6 ≤ (jsTrimSplitWs l).length := by
      rw [h]
      simp only [List.length_cons]
      omega
    simp [hne, hlen]
  · next h =>
    have hlen : ¬ 6 ≤ (jsTrimSplitWs l).length := by
      intro hle
      obtain ⟨a, b, c, d, e, f, rest, hsh⟩ := six_shape _ hle
      exact h a b c d e f rest hsh
    simp [hlen]

/-- C4: every table line tokenizing into fewer than 6 whitespace tokens is
dropped: the parsed table equals the parse of only the long-enough data lines
(so a short line contributes no entry, hence no network/platform data to any
reconciled record), and a short line parses to the empty-id sentinel row. -/
theorem short_lines_contribute_nothing (output : String) :
    parseContainerTable output
      = (((jsSplitChar '\n' output).drop 1).filter
          (fun l => decide (6 ≤ (jsTrimSplitWs l).length))).map parseRow
    ∧ ∀ line : String, (jsTrimSplitWs line).length < 6 →
        parseRow line = ⟨"", none, none, none⟩ := by
  constructor
  · show (((jsSplitChar '\n' output).drop 1).map parseRow).filter _ = _
    rw [List.filter_map]
    congr 1
    apply List.filter_congr
    intro l _
    exact parseRow_id_length l
  · intro line hlt
    unfold parseRow
    split
    · next idt _ ost archt _ ipt rest h =>
      rw [h] at hlt
      simp only [List.length_cons] at hlt
      omega
    · rfl

/-- Witness for C4: the one-token line `abc` parses to the dropped sentinel. -/
theorem short_lines_contribute_nothing_witness :
    parseRow "abc" = ⟨"", none, none, none⟩ :=
  (short_lines_contribute_nothing "").2 "abc" (by decide)

/-- C5: a table line whose sixth whitespace token is the literal `N/A` parses
with `ipAddress` absent, and any reconciled record joined to that line's entry
has its `ipAddress` field absent — never the string `"N/A"`. -/
theorem na_ip_token_absent (line : String)
    (h6 : 6 ≤ (jsTrimSplitWs line).length)
    (hna : (jsTrimSplitWs line).getD 5 "" = "N/A") :
    (parseRow line).ipAddress = none
    ∧ ∀ (t : String) (rc : RawContainer),
        (parseContainerTable t).find? (fun e => e.id == containerIdOf rc)
            = some (parseRow line) →
          (mergeContainer (parseContainerTable t) rc).ipAddress = none := by
  obtain ⟨a, b, c, d, e, f, rest, hsh⟩ := six_shape _ h6
  have hf : f = "N/A" := by
    rw [hsh] at hna
    simpa [List.getD] using hna
  have hip : (parseRow line).ipAddress = none := by
    unfold parseRow
    rw [hsh]
    simp [hf]
  refine ⟨hip, ?_⟩
  intro t rc hfind
  simp only [containerIdOf] at hfind
  simp [mergeContainer, hfind, hip]

/-- Witness for C5 at the line `abc - linux arm64 - N/A` and a matching JSON
entry with id `abc`. -/
theorem na_ip_token_absent_witness :
    (mergeContainer (parseContainerTable "HEADER\nabc - linux arm64 - N/A")
        ⟨some ⟨some "abc", none, none⟩, none⟩).ipAddress = none :=
  (na_ip_token_absent "abc - linux arm64 - N/A" (by decide) (by decide)).2
    "HEADER\nabc - linux arm64 - N/A" ⟨some ⟨some "abc", none, none⟩, none⟩ (by decide)

/-- C1 counterexample: for the listed reference `localhost:5000/nginx:latest`
the code's repository is the prefix before the FIRST colon (`localhost`) and
the tag is the segment between the first and second colons (`5000/nginx`) —
not, as claimed, the prefix before the last colon and the suffix after it. -/
theorem image_split_counterexample :
    lastColonSplitClaim "localhost:5000/nginx:latest" = ("localhost:5000/nginx", "latest")
    ∧ ((mapImage ⟨some "localhost:5000/nginx:latest", none⟩).repository,
        (mapImage ⟨some "localhost:5000/nginx:latest", none⟩).tag)
      = ("localhost", "5000/nginx")
    ∧ (("localhost", "5000/nginx") : String × String) ≠ ("localhost:5000/nginx", "latest") := by
  decide

/-- C1 (amended): after stripping everything from the first `@`, the reference
is split on every colon; the repository is the segment before the first colon
(`"unknown"` when empty) and the tag is the segment between the first and
second colons (`"latest"` when missing or empty). In particular
`docker.io/library/nginx:latest` parses to repository
`docker.io/library/nginx` and tag `latest`. -/
theorem image_split_first_colon (rawImage : RawImage) :
    ((mapImage rawImage).repository, (mapImage rawImage).tag)
      = firstColonSplitSpec (jsOrStr rawImage.reference "")
    ∧ (mapImage ⟨some "docker.io/library/nginx:latest", none⟩).repository
        = "docker.io/library/nginx"
    ∧ (mapImage ⟨some "docker.io/library/nginx:latest", none⟩).tag = "latest" := by
  refine ⟨?_, by decide, by decide⟩
  simp only [mapImage, firstColonSplitSpec]
  cases h : jsSplitChar ':' ((jsSplitChar '@' (jsOrStr rawImage.reference "")).headD "") with
  | nil => simp [h]
  | cons r rest =>
    cases rest with
    | nil => simp [h]
    | cons tg rest2 => simp [h]

/-- C6: whenever the external command fails or its output is not parseable
JSON, the container and image listing operations return the empty list and
surface an error notice; the model is a total function, so no fault
propagates to the caller. -/
theorem listing_failure_yields_empty
    (pcon : String → Option (List RawContainer)) (pimg : String → Option (List RawImage))
    (jsonRes tableRes imgRes : ExecResult)
    (hc : (∃ e, jsonRes = ExecResult.err e)
        ∨ (∃ s, jsonRes = ExecResult.ok s ∧ pcon s = none)
        ∨ (∃ e, tableRes = ExecResult.err e))
    (hi : (∃ e, imgRes = ExecResult.err e)
        ∨ (∃ s, imgRes = ExecResult.ok s ∧ pimg s = none)) :
    (listContainersModel pcon jsonRes tableRes).1 = []
    ∧ (listContainersModel pcon jsonRes tableRes).2.isSome = true
    ∧ (listImagesModel pimg imgRes).1 = []
    ∧ (listImagesModel pimg imgRes).2.isSome = true := by
  have hcon : (listContainersModel pcon jsonRes tableRes).1 = []
      ∧ (listContainersModel pcon jsonRes tableRes).2.isSome = true := by
    rcases hc with ⟨e, rfl⟩ | ⟨s, rfl, hp⟩ | ⟨e, rfl⟩
    · exact ⟨rfl, rfl⟩
    · simp [listContainersModel, hp]
    · cases jsonRes with
      | err e2 => exact ⟨rfl, rfl⟩
      | ok s =>
        cases hps : pcon s with
        | none => simp [listContainersModel, hps]
        | some raw => simp [listContainersModel, hps]
  have himg : (listImagesModel pimg imgRes).1 = []
      ∧ (listImagesModel pimg imgRes).2.isSome = true := by
    rcases hi with ⟨e, rfl⟩ | ⟨s, rfl, hp⟩
    · exact ⟨rfl, rfl⟩
    · simp [listImagesModel, hp]
  exact ⟨hcon.1, hcon.2, himg.1, himg.2⟩

/-- Witness for C6: a failing `execAsync` yields the empty container list. -/
theorem listing_failure_yields_empty_witness :
    (listContainersModel (fun _ => none) (ExecResult.err "boom") (ExecResult.ok "")).1 = []
    ∧ (listImagesModel (fun _ => none) (ExecResult.err "boom")).1 = [] := by
  have h := listing_failure_yields_empty (fun _ => none) (fun _ => none)
    (ExecResult.err "boom") (ExecResult.ok "") (ExecResult.err "boom")
    (Or.inl ⟨"boom", rfl⟩) (Or.inl ⟨"boom", rfl⟩)
  exact ⟨h.1, h.2.2.1⟩

/-- C7: every destructive action (remove container, force-remove container,
remove image, prune images) issues its CLI command only on an explicit `Yes`
answer — declining or dismissing issues nothing and `pruneImages` returns
`false` — whereas the non-destructive actions (start, stop, run, pull, build,
exec, inspect) take no confirmation input and always issue their command. -/
theorem destructive_actions_gated (answer : Answer)
    (containerId imageId image contextPath command : String)
    (execOk : Bool) (o : RunOptions) :
    (answer ≠ Answer.yes →
      pruneImages answer execOk = ([], false)
      ∧ detailsRemoveContainer answer containerId execOk = []
      ∧ paletteRemoveContainer answer containerId execOk = []
      ∧ paletteForceRemoveContainer answer containerId execOk = []
      ∧ paletteRemoveImage answer imageId execOk = [])
    ∧ (answer = Answer.yes →
      (pruneImages answer execOk).1 = ["container image prune --force"]
      ∧ detailsRemoveContainer answer containerId execOk
          = ["container delete " ++ containerId]
      ∧ paletteRemoveContainer answer containerId execOk
          = ["container delete " ++ containerId]
      ∧ paletteForceRemoveContainer answer containerId execOk
          = ["container delete --force " ++ containerId]
      ∧ paletteRemoveImage answer imageId execOk
          = ["container image delete " ++ imageId])
    ∧ (startContainer containerId execOk).1 = ["container start " ++ containerId]
    ∧ (stopContainer containerId execOk).1 = ["container stop " ++ containerId]
    ∧ (runContainerAdvanced image o).1 = [buildRunCmd image o]
    ∧ (pullImage image).1 = ["container image pull " ++ image]
    ∧ (buildImage contextPath none none).1 = ["container build " ++ contextPath]
    ∧ (execInContainer containerId command).1
        = ["container exec --interactive --tty " ++ containerId ++ " " ++ command]
    ∧ (inspectContainer containerId execOk).1 = ["container inspect " ++ containerId] := by
  refine ⟨?_, ?_, rfl, rfl, rfl, rfl, ?_, rfl, rfl⟩
  · intro h
    simp [pruneImages, detailsRemoveContainer, paletteRemoveContainer,
      paletteForceRemoveContainer, paletteRemoveImage, h]
  · intro h
    subst h
    exact ⟨rfl, rfl, rfl, rfl, rfl⟩
  · simp [buildImage, String.append_empty]

/-- Witness for C7: declining leaves the prune un-issued with result `false`;
answering `Yes` issues exactly the prune command. -/
theorem destructive_actions_gated_witness :
    pruneImages Answer.no true = ([], false)
    ∧ (pruneImages Answer.yes true).1 = ["container image prune --force"] :=
  ⟨((destructive_actions_gated Answer.no "c" "i" "img" "p" "x" true
      ⟨none, [], [], none, none, false, false, false, false, none, none, none, none,
        none, none, none, none, none⟩).1 (by decide)).1,
   ((destructive_actions_gated Answer.yes "c" "i" "img" "p" "x" true
      ⟨none, [], [], none, none, false, false, false, false, none, none, none, none,
        none, none, none, none, none⟩).2.1 rfl).1⟩

/-- C9: for an image reference containing case-insensitive `redis` (in
particular one containing both `redis` and `nginx`), the connection heuristic
emits exactly the Redis CLI example — the `redis` fragment is tested first,
so the web-server example never appears. -/
theorem redis_beats_nginx (container : Container)
    (hredis : jsIncludes (jsToLower container.image) "redis" = true)
    (_hnginx : jsIncludes (jsToLower container.image) "nginx" = true) :
    getConnectionExamples container
      = [⟨"🔗 Redis CLI",
          "redis-cli -h " ++ container.ipAddress.getD "" ++ " -p 6379",
          "redis-cli -h " ++ container.ipAddress.getD "" ++ " -p 6379"⟩]
    ∧ ∀ ex ∈ getConnectionExamples container, ex.label ≠ "🌐 Web Server" := by
  have h1 : getConnectionExamples container
      = [⟨"🔗 Redis CLI",
          "redis-cli -h " ++ container.ipAddress.getD "" ++ " -p 6379",
          "redis-cli -h " ++ container.ipAddress.getD "" ++ " -p 6379"⟩] := by
    simp [getConnectionExamples, hredis]
  refine ⟨h1, ?_⟩
  intro ex hex
  rw [h1] at hex
  simp only [List.mem_singleton] at hex
  subst hex
  show ("🔗 Redis CLI" : String) ≠ "🌐 Web Server"
  decide

/-- Witness for C9 at the image `my-redis-nginx:latest`. -/
theorem redis_beats_nginx_witness :
    getConnectionExamples
        ⟨"abc", "abc", "my-redis-nginx:latest", "running", some "", "unknown",
          some "10.0.0.5", none, none⟩
      = [⟨"🔗 Redis CLI",
          "redis-cli -h " ++ "10.0.0.5" ++ " -p 6379",
          "redis-cli -h " ++ "10.0.0.5" ++ " -p 6379"⟩] :=
  (redis_beats_nginx
    ⟨"abc", "abc", "my-redis-nginx:latest", "running", some "", "unknown",
      some "10.0.0.5", none, none⟩ (by decide) (by decide)).1

/-- C10: every record the container listing produces has a non-empty name
(hostname falling back to the id), ports equal to the empty string and
created equal to the lowercase literal `unknown`; hence the detail view's
suppression check (`created !== 'Unknown'`, capitalized) never fires and a
Created detail row showing `unknown` is rendered for every container. -/
theorem merged_created_row (raw : List RawContainer) (t : String) (c : Container)
    (hc : c ∈ listContainersMerge raw t) :
    c.name ≠ "" ∧ c.ports = some "" ∧ c.created = "unknown"
    ∧ ((c.created != "") && (c.created != "Unknown")) = true
    ∧ (⟨"🕒 Created", "unknown", "created", none⟩ : ContainerDetailItem)
        ∈ getContainerDetails c := by
  obtain ⟨rc, _hrc, rfl⟩ := List.mem_map.mp hc
  have hcreated : (mergeContainer (parseContainerTable t) rc).created = "unknown" := rfl
  refine ⟨?_, rfl, hcreated, rfl, ?_⟩
  · show jsOrStr (rc.configuration.getD emptyConfig).hostname
        (jsOrStr (rc.configuration.getD emptyConfig).id "unknown") ≠ ""
    exact jsOrStr_ne_empty _ _ (jsOrStr_ne_empty _ _ (by decide))
  · simp only [getContainerDetails]
    refine List.mem_append_right _ ?_
    rw [hcreated]
    decide

/-- Witness for C10 at a minimal JSON entry and empty table output. -/
theorem merged_created_row_witness :
    (⟨"🕒 Created", "unknown", "created", none⟩ : ContainerDetailItem)
      ∈ getContainerDetails (mergeContainer (parseContainerTable "") ⟨none, none⟩) :=
  (merged_created_row [⟨none, none⟩] "" _ (by decide)).2.2.2.2
